import Mathlib

/-!
Verification of the opencode-notifier plugin.

This file gives a shallow embedding, in Lean 4, of the configuration
resolver (`loadConfig` / `saveConfig` in `config.ts`), the sound toggle
operations (`sound-toggle.ts`), the notification debounce
(`notify.ts`), the terminal-focus name matching, and the event dispatch
logic (`handleEvent`, `handleEventWithElapsedTime` in the plugin entry
point), together with theorems settling the spec's testable properties.

Modelling conventions:
* JavaScript numbers are modelled by `JNum` (a rational, `Infinity`,
  `-Infinity`, or `NaN`); `Number.isFinite` and the JS `> 0` comparison
  are modelled explicitly.  Note `JSON.parse` can yield `Infinity`
  (e.g. the literal `1e999` overflows to `Infinity`) but never `NaN`.
* A parsed user config file is modelled by the structure `UserFile`,
  whose fields are exactly the properties `loadConfig` reads; `Option`
  encodes JS `undefined`/`null` (both fall through `??`).
* The filesystem state seen by the sound toggle is `Option UserFile`
  (`none` = config file absent).
* Asynchronous side effects of `handleEvent` are recorded in a
  `HandleResult` value; external query results (terminal focus, host
  session messages) are passed in as parameters.
-/

/-- A JavaScript number: finite (as a rational), `Infinity`, `-Infinity`, or `NaN`. -/
inductive JNum where
  | fin (q : ℚ)
  | inf
  | negInf
  | nan
deriving DecidableEq

/-- `Number.isFinite`. -/
def JNum.isFinite : JNum → Bool
  | .fin _ => true
  | _ => false

/-- The JS comparison `n > 0` (false for `NaN` and `-Infinity`, true for `Infinity`). -/
def JNum.gtZero : JNum → Bool
  | .fin q => decide (0 < q)
  | .inf => true
  | .negInf => false
  | .nan => false

/-- The finite value of a `JNum` (junk `0` on non-finite inputs, which the
code never uses because it tests `isFinite` first). -/
def JNum.toRatD : JNum → ℚ
  | .fin q => q
  | _ => 0

/-- A JSON field value as far as the numeric-field checks observe it:
a number, `null`, or some other (non-number) JSON value. -/
inductive JVal where
  | jnum (n : JNum)
  | jnull
  | jother
deriving DecidableEq

/-- `JSON.stringify` of a number: `Infinity` and `NaN` serialize as `null`. -/
def JVal.ofStringifiedNum (n : JNum) : JVal :=
  match n with
  | .fin q => .jnum (.fin q)
  | _ => .jnull

/-- An entry of a JSON `command.args` array: a string or some other value
(non-string entries are filtered out by `loadConfig`). -/
inductive ArgItem where
  | astr (s : String)
  | aother
deriving DecidableEq

/-- The five lifecycle event types (`EventType` in `config.ts`). -/
inductive EventType where
  | permission
  | complete
  | subagent_complete
  | error
  | question
deriving DecidableEq

/-- A total mapping keyed by `EventType` (the shape of the `events`,
`messages` and `sounds` records of the config). -/
structure EventMap (α : Type) where
  permission : α
  complete : α
  subagent_complete : α
  error : α
  question : α
deriving DecidableEq

/-- Index an `EventMap` by an `EventType` (the `config.events[event]` lookups). -/
def EventMap.get {α : Type} (m : EventMap α) : EventType → α
  | .permission => m.permission
  | .complete => m.complete
  | .subagent_complete => m.subagent_complete
  | .error => m.error
  | .question => m.question

/-- Per-event flags (`EventConfig` in `config.ts`). -/
structure EventConfig where
  sound : Bool
  notification : Bool
deriving DecidableEq

/-- `CommandConfig` in `config.ts`.  `loadConfig` always produces a
numeric `minDuration` (0 when absent/invalid) and a finite one, so it is
a rational here; `args` keeps its optionality. -/
structure CommandConfig where
  enabled : Bool
  path : String
  args : Option (List String)
  minDuration : ℚ
deriving DecidableEq

/-- The `notificationSystem` field: `"osascript"` or `"node-notifier"`. -/
inductive NotificationSystem where
  | osascript
  | nodeNotifier
deriving DecidableEq

/-- `NotifierConfig` in `config.ts`.  `timeout` is a `JNum` because
`loadConfig` only checks `typeof === "number" && > 0` (no finiteness
check), so `Infinity` can be stored.  `suppressWhenFocused` is read by
`handleEvent` (`config.suppressWhenFocused`) although the interface does
not declare it and `loadConfig` never sets it (an absent property is
`undefined`, i.e. falsy, modelled as `false`). -/
structure NotifierConfig where
  sound : Bool
  notification : Bool
  timeout : JNum
  showProjectName : Bool
  showIcon : Bool
  notificationSystem : NotificationSystem
  command : CommandConfig
  events : EventMap EventConfig
  messages : EventMap String
  sounds : EventMap (Option String)
  suppressWhenFocused : Bool
deriving DecidableEq

/-- `DEFAULT_EVENT_CONFIG` in `config.ts`. -/
def DEFAULT_EVENT_CONFIG : EventConfig :=
  { sound := true, notification := true }

/-- `DEFAULT_CONFIG` in `config.ts`. -/
def DEFAULT_CONFIG : NotifierConfig :=
  { sound := true
    notification := true
    timeout := .fin 5
    showProjectName := true
    showIcon := true
    notificationSystem := .osascript
    command := { enabled := false, path := "", args := none, minDuration := 0 }
    events :=
      { permission := DEFAULT_EVENT_CONFIG
        complete := DEFAULT_EVENT_CONFIG
        subagent_complete := { sound := false, notification := false }
        error := DEFAULT_EVENT_CONFIG
        question := DEFAULT_EVENT_CONFIG }
    messages :=
      { permission := "Session needs permission"
        complete := "Session has finished"
        subagent_complete := "Subagent task completed"
        error := "Session encountered an error"
        question := "Session has a question" }
    sounds :=
      { permission := none
        complete := none
        subagent_complete := none
        error := none
        question := none }
    suppressWhenFocused := false }

/-- A partial per-event override object (`{sound?, notification?}`). -/
structure EventOverride where
  sound : Option Bool
  notification : Option Bool
deriving DecidableEq

/-- A user-supplied per-event entry: a boolean shorthand or a partial object. -/
inductive UserEventVal where
  | shorthand (b : Bool)
  | override (o : EventOverride)
deriving DecidableEq

/-- The user `command` object as read by `loadConfig` (`Option` = absent
or of the wrong JS type for the corresponding `typeof` check). -/
structure UserCommand where
  enabled : Option Bool
  path : Option String
  args : Option (List ArgItem)
  minDuration : Option JVal
deriving DecidableEq

/-- A parsed config file, restricted to the properties `loadConfig`
reads.  `Option` models JS `undefined`/`null` for the `??` chains; the
five bare event-name fields are the legacy top-level keys. -/
structure UserFile where
  sound : Option Bool
  notification : Option Bool
  timeout : Option JVal
  showProjectName : Option Bool
  showIcon : Option Bool
  notificationSystem : Option String
  command : Option UserCommand
  events : Option (EventMap (Option UserEventVal))
  permission : Option UserEventVal
  complete : Option UserEventVal
  subagent_complete : Option UserEventVal
  error : Option UserEventVal
  question : Option UserEventVal
  messages : Option (EventMap (Option String))
  sounds : Option (EventMap (Option String))
deriving DecidableEq

/-- The config file with no recognized fields. -/
def emptyUserFile : UserFile :=
  { sound := none, notification := none, timeout := none
    showProjectName := none, showIcon := none, notificationSystem := none
    command := none, events := none
    permission := none, complete := none, subagent_complete := none
    error := none, question := none
    messages := none, sounds := none }

/-- The empty user `command` object (`userConfig.command ?? {}`). -/
def emptyUserCommand : UserCommand :=
  { enabled := none, path := none, args := none, minDuration := none }

/-- `parseEventConfig` in `config.ts`: `undefined` yields the default,
a boolean shorthand applies to both fields, an object overrides each
field independently. -/
def parseEventConfig (userEvent : Option UserEventVal) (defaultConfig : EventConfig) :
    EventConfig :=
  match userEvent with
  | none => defaultConfig
  | some (.shorthand b) => { sound := b, notification := b }
  | some (.override o) =>
    { sound := o.sound.getD defaultConfig.sound
      notification := o.notification.getD defaultConfig.notification }

/-- The body of `loadConfig` in `config.ts` on a successfully parsed
file (the missing-file and parse-error paths return `DEFAULT_CONFIG`
and are handled by `loadConfig` below). -/
def loadConfigFile (u : UserFile) : NotifierConfig :=
  let globalSound := u.sound.getD DEFAULT_CONFIG.sound
  let globalNotification := u.notification.getD DEFAULT_CONFIG.notification
  let defaultWithGlobal : EventConfig :=
    { sound := globalSound, notification := globalNotification }
  let userCommand := u.command.getD emptyUserCommand
  let commandArgs := userCommand.args.map
    (List.filterMap fun a => match a with | .astr s => some s | .aother => none)
  let commandMinDuration : ℚ :=
    match userCommand.minDuration with
    | some (.jnum n) => if n.isFinite && n.gtZero then n.toRatD else 0
    | _ => 0
  { sound := globalSound
    notification := globalNotification
    timeout :=
      match u.timeout with
      | some (.jnum n) => if n.gtZero then n else DEFAULT_CONFIG.timeout
      | _ => DEFAULT_CONFIG.timeout
    showProjectName := u.showProjectName.getD DEFAULT_CONFIG.showProjectName
    showIcon := u.showIcon.getD DEFAULT_CONFIG.showIcon
    notificationSystem :=
      if u.notificationSystem = some "node-notifier" then .nodeNotifier else .osascript
    command :=
      { enabled := userCommand.enabled.getD DEFAULT_CONFIG.command.enabled
        path := userCommand.path.getD DEFAULT_CONFIG.command.path
        args := commandArgs
        minDuration := commandMinDuration }
    events :=
      { permission :=
          parseEventConfig ((u.events.bind (fun ev => ev.permission)) <|> u.permission)
            defaultWithGlobal
        complete :=
          parseEventConfig ((u.events.bind (fun ev => ev.complete)) <|> u.complete)
            defaultWithGlobal
        subagent_complete :=
          parseEventConfig
            ((u.events.bind (fun ev => ev.subagent_complete)) <|> u.subagent_complete)
            { sound := false, notification := false }
        error :=
          parseEventConfig ((u.events.bind (fun ev => ev.error)) <|> u.error)
            defaultWithGlobal
        question :=
          parseEventConfig ((u.events.bind (fun ev => ev.question)) <|> u.question)
            defaultWithGlobal }
    messages :=
      { permission := (u.messages.bind (fun m => m.permission)).getD
          DEFAULT_CONFIG.messages.permission
        complete := (u.messages.bind (fun m => m.complete)).getD
          DEFAULT_CONFIG.messages.complete
        subagent_complete := (u.messages.bind (fun m => m.subagent_complete)).getD
          DEFAULT_CONFIG.messages.subagent_complete
        error := (u.messages.bind (fun m => m.error)).getD
          DEFAULT_CONFIG.messages.error
        question := (u.messages.bind (fun m => m.question)).getD
          DEFAULT_CONFIG.messages.question }
    sounds :=
      { permission := (u.sounds.bind (fun s => s.permission)) <|> DEFAULT_CONFIG.sounds.permission
        complete := (u.sounds.bind (fun s => s.complete)) <|> DEFAULT_CONFIG.sounds.complete
        subagent_complete :=
          (u.sounds.bind (fun s => s.subagent_complete)) <|> DEFAULT_CONFIG.sounds.subagent_complete
        error := (u.sounds.bind (fun s => s.error)) <|> DEFAULT_CONFIG.sounds.error
        question := (u.sounds.bind (fun s => s.question)) <|> DEFAULT_CONFIG.sounds.question }
    suppressWhenFocused := false }

/-- `loadConfig` in `config.ts`: a missing (or unparseable) file —
modelled as `none` — yields `DEFAULT_CONFIG`. -/
def loadConfig (fs : Option UserFile) : NotifierConfig :=
  match fs with
  | none => DEFAULT_CONFIG
  | some u => loadConfigFile u

/-- `isEventSoundEnabled` in `config.ts`. -/
def isEventSoundEnabled (config : NotifierConfig) (event : EventType) : Bool :=
  (config.events.get event).sound

/-- `isEventNotificationEnabled` in `config.ts`. -/
def isEventNotificationEnabled (config : NotifierConfig) (event : EventType) : Bool :=
  (config.events.get event).notification

/-- `getMessage` in `config.ts`. -/
def getMessage (config : NotifierConfig) (event : EventType) : String :=
  config.messages.get event

/-- `getSoundPath` in `config.ts`. -/
def getSoundPath (config : NotifierConfig) (event : EventType) : Option String :=
  config.sounds.get event

/-- `saveConfig` in `config.ts`, as the file it writes.  Global fields
and `messages` are written unconditionally; a per-event entry is written
only when it differs from the computed default (`defaultWithGlobal`, or
both-false for `subagent_complete`); the `command` block only when the
command is enabled or has a non-empty path (JS truthiness of `path`);
the `sounds` mapping is never written.  `JSON.stringify` turns a
non-finite `timeout` into `null` and drops an `undefined` `args` key;
an all-`undefined` `events` object is deleted by the cleanup loop. -/
def saveConfig (config : NotifierConfig) : UserFile :=
  let defaultWithGlobal : EventConfig :=
    { sound := config.sound, notification := config.notification }
  let savedEvents : EventMap (Option UserEventVal) :=
    { permission :=
        if config.events.permission.sound != defaultWithGlobal.sound ||
            config.events.permission.notification != defaultWithGlobal.notification then
          some (.override { sound := some config.events.permission.sound
                            notification := some config.events.permission.notification })
        else none
      complete :=
        if config.events.complete.sound != defaultWithGlobal.sound ||
            config.events.complete.notification != defaultWithGlobal.notification then
          some (.override { sound := some config.events.complete.sound
                            notification := some config.events.complete.notification })
        else none
      subagent_complete :=
        if config.events.subagent_complete.sound != false ||
            config.events.subagent_complete.notification != false then
          some (.override { sound := some config.events.subagent_complete.sound
                            notification := some config.events.subagent_complete.notification })
        else none
      error :=
        if config.events.error.sound != defaultWithGlobal.sound ||
            config.events.error.notification != defaultWithGlobal.notification then
          some (.override { sound := some config.events.error.sound
                            notification := some config.events.error.notification })
        else none
      question :=
        if config.events.question.sound != defaultWithGlobal.sound ||
            config.events.question.notification != defaultWithGlobal.notification then
          some (.override { sound := some config.events.question.sound
                            notification := some config.events.question.notification })
        else none }
  { sound := some config.sound
    notification := some config.notification
    timeout := some (JVal.ofStringifiedNum config.timeout)
    showProjectName := some config.showProjectName
    showIcon := some config.showIcon
    notificationSystem :=
      some (match config.notificationSystem with
            | .osascript => "osascript"
            | .nodeNotifier => "node-notifier")
    command :=
      if config.command.enabled || config.command.path != "" then
        some { enabled := some config.command.enabled
               path := some config.command.path
               args := config.command.args.map (List.map ArgItem.astr)
               minDuration := some (.jnum (.fin config.command.minDuration)) }
      else none
    events :=
      if savedEvents.permission = none ∧ savedEvents.complete = none ∧
          savedEvents.subagent_complete = none ∧ savedEvents.error = none ∧
          savedEvents.question = none then
        none
      else some savedEvents
    permission := none
    complete := none
    subagent_complete := none
    error := none
    question := none
    messages :=
      some { permission := some config.messages.permission
             complete := some config.messages.complete
             subagent_complete := some config.messages.subagent_complete
             error := some config.messages.error
             question := some config.messages.question }
    sounds := none }

/-! ## Terminal focus detection (plugin entry point) -/

/-- `normalizeAppName`: lowercase and strip every character outside
`[a-z0-9]` (the JS regex `[^a-z0-9]` applied after `toLowerCase()`). -/
def normalizeAppName (value : String) : String :=
  String.mk ((value.toList.map Char.toLower).filter fun c => c.isLower || c.isDigit)

/-- JS `hay.includes(needle)`: `needle` occurs contiguously in `hay`. -/
def strIncludes (hay needle : String) : Bool :=
  decide (needle.toList <:+: hay.toList)

/-- `matchesTerminal`: normalize both names; empty normalizations never
match; otherwise match when either normalized name contains the other. -/
def matchesTerminal (frontmost terminal : String) : Bool :=
  let frontNormalized := normalizeAppName frontmost
  let terminalNormalized := normalizeAppName terminal
  if frontNormalized = "" || terminalNormalized = "" then false
  else
    strIncludes frontNormalized terminalNormalized ||
      strIncludes terminalNormalized frontNormalized

/-! ## Notification debounce (`notify.ts`) -/

/-- The in-memory `lastNotificationTime` map of `notify.ts`: message
text to the `Date.now()` timestamp of the last delivered notification
with that text (`none` = no entry). -/
def NotifyState : Type := String → Option ℕ

/-- The fresh state at module load: an empty map. -/
def emptyNotifyState : NotifyState := fun _ => none

/-- `sendNotification` in `notify.ts`, as a state transition at clock
value `now`: returns whether the notification is delivered (not
debounced) and the updated map.  The JS guard
`lastNotificationTime[message] && now - lastNotificationTime[message] < DEBOUNCE_MS`
is truthy only when an entry exists and is a non-zero timestamp; the
subtraction is JS number subtraction, modelled over `ℤ`.  A suppressed
call does not update the map. -/
def sendNotification (st : NotifyState) (message : String) (now : ℕ) : Bool × NotifyState :=
  match st message with
  | some t =>
    if t ≠ 0 ∧ (now : ℤ) - (t : ℤ) < 1000 then (false, st)
    else (true, fun m => if m = message then some now else st m)
  | none => (true, fun m => if m = message then some now else st m)

/-! ## Sound toggle (`sound-toggle.ts`)

The real functions read and write the config file through `loadConfig` /
`saveConfig`; here the filesystem is threaded explicitly as an
`Option UserFile` (`none` = no config file), and each operation returns
its result record together with the filesystem after the call. -/

/-- `SoundToggleResult` in `sound-toggle.ts` (`soundEnabled` optional). -/
structure SoundToggleResult where
  success : Bool
  message : String
  soundEnabled : Option Bool
deriving DecidableEq

/-- `enableSound`. -/
def enableSound (fs : Option UserFile) : SoundToggleResult × Option UserFile :=
  match fs with
  | none =>
    ({ success := false
       message := "Config file not found. Please run the notifier plugin first to create the default config."
       soundEnabled := none }, fs)
  | some _ =>
    let config := loadConfig fs
    let config := { config with sound := true }
    ({ success := true, message := "Sounds have been enabled.", soundEnabled := some true },
      some (saveConfig config))

/-- `disableSound`. -/
def disableSound (fs : Option UserFile) : SoundToggleResult × Option UserFile :=
  match fs with
  | none =>
    ({ success := false
       message := "Config file not found. Please run the notifier plugin first to create the default config."
       soundEnabled := none }, fs)
  | some _ =>
    let config := loadConfig fs
    let config := { config with sound := false }
    ({ success := true, message := "Sounds have been disabled.", soundEnabled := some false },
      some (saveConfig config))

/-- `toggleSound`. -/
def toggleSound (fs : Option UserFile) : SoundToggleResult × Option UserFile :=
  match fs with
  | none =>
    ({ success := false
       message := "Config file not found. Please run the notifier plugin first to create the default config."
       soundEnabled := none }, fs)
  | some _ =>
    let config := loadConfig fs
    let config := { config with sound := !config.sound }
    ({ success := true
       message := if config.sound then "Sounds have been enabled." else "Sounds have been disabled."
       soundEnabled := some config.sound },
      some (saveConfig config))

/-- `soundStatus` (never mutates). -/
def soundStatus (fs : Option UserFile) : SoundToggleResult × Option UserFile :=
  match fs with
  | none =>
    ({ success := false
       message := "Config file not found. Please run the notifier plugin first to create the default config."
       soundEnabled := none }, fs)
  | some _ =>
    let config := loadConfig fs
    let isEnabled := config.sound
    ({ success := true
       message := if isEnabled then "Sounds are currently enabled." else "Sounds are currently disabled."
       soundEnabled := some isEnabled }, fs)

/-- `executeSoundToggle`: dispatch on the action string; an unknown
action fails without touching the file. -/
def executeSoundToggle (action : String) (fs : Option UserFile) :
    SoundToggleResult × Option UserFile :=
  match action with
  | "toggle" => toggleSound fs
  | "enable" => enableSound fs
  | "disable" => disableSound fs
  | "status" => soundStatus fs
  | _ =>
    ({ success := false, message := "Unknown action: " ++ action, soundEnabled := none }, fs)

/-! ## Event dispatch (plugin entry point, `handleEvent`) -/

/-- The observable side effects of one `handleEvent` invocation:
the notification pushed (title, message, timeout), the sound playback
pushed (event type, custom sound path), and whether `runCommand` was
invoked. -/
structure HandleResult where
  notificationSent : Option (String × String × JNum)
  soundPlayed : Option (EventType × Option String)
  commandRun : Bool
deriving DecidableEq

/-- `getNotificationTitle`: the project name is appended only when
`showProjectName` is set and the name is truthy (non-empty). -/
def getNotificationTitle (config : NotifierConfig) (projectName : Option String) : String :=
  match projectName with
  | some p => if config.showProjectName && p != "" then "OpenCode (" ++ p ++ ")" else "OpenCode"
  | none => "OpenCode"

/-- `handleEvent` in the plugin entry point.  The awaited
`isTerminalFocused()` result is passed in as `focused`.  When
notification is enabled, `suppressWhenFocused` is set and the terminal
is focused, the function returns before dispatching anything.  The
command is skipped only when `minDuration` is a positive (finite)
number and `elapsedSeconds` is a known (finite) number strictly below
it; `elapsedSeconds = none` models the JS `null`/`undefined`. -/
def handleEvent (config : NotifierConfig) (eventType : EventType)
    (projectName : Option String) (elapsedSeconds : Option ℚ) (focused : Bool) :
    HandleResult :=
  let message := getMessage config eventType
  if isEventNotificationEnabled config eventType && config.suppressWhenFocused && focused then
    { notificationSent := none, soundPlayed := none, commandRun := false }
  else
    let minDuration := config.command.minDuration
    let shouldSkipCommand :=
      decide (0 < minDuration) &&
        (match elapsedSeconds with
         | some e => decide (e < minDuration)
         | none => false)
    { notificationSent :=
        if isEventNotificationEnabled config eventType then
          some (getNotificationTitle config projectName, message, config.timeout)
        else none
      soundPlayed :=
        if isEventSoundEnabled config eventType then
          some (eventType, getSoundPath config eventType)
        else none
      commandRun := !shouldSkipCommand }

/-- A host event as far as `getSessionIDFromEvent` observes it:
`event?.properties?.sessionID` when that is a string (else absent). -/
structure HostEvent where
  sessionID : Option String
deriving DecidableEq

/-- `getSessionIDFromEvent`: the session ID only counts when it is a
non-empty string. -/
def getSessionIDFromEvent (event : HostEvent) : Option String :=
  match event.sessionID with
  | some s => if s.length > 0 then some s else none
  | none => none

/-- One entry of the host's session message list (`msg.info`): the
message role and, when present as a number, `info.time?.created`. -/
structure MsgInfo where
  role : String
  timeCreated : Option ℚ
deriving DecidableEq

/-- The scan loop of `getElapsedSinceLastPrompt`: the latest
`time.created` among user-role messages that carry a numeric one. -/
def lastUserMessageTime (messages : List MsgInfo) : Option ℚ :=
  messages.foldl
    (fun lastTime msg =>
      if msg.role = "user" then
        match msg.timeCreated with
        | some created =>
          match lastTime with
          | none => some created
          | some l => if created > l then some created else some l
        | none => lastTime
      else lastTime)
    none

/-- `getElapsedSinceLastPrompt`.  `resp` is the host query outcome:
`none` when `client.session.messages` throws (caught, yielding `null`),
`some data` otherwise with `data` the possibly-null message list
(`response.data ?? []`).  Returns elapsed seconds since the last
user message, or `none` when there is none. -/
def getElapsedSinceLastPrompt (resp : Option (Option (List MsgInfo))) (now : ℚ) :
    Option ℚ :=
  match resp with
  | none => none
  | some data =>
    let messages := data.getD []
    match lastUserMessageTime messages with
    | some t => some ((now - t) / 1000)
    | none => none

/-- `handleEventWithElapsedTime`: elapsed time is looked up only when
the external command is enabled with a non-empty path and a positive
(finite) `minDuration`, and the event carries a session ID; every other
path leaves it `null`. -/
def handleEventWithElapsedTime (config : NotifierConfig) (eventType : EventType)
    (projectName : Option String) (event : HostEvent)
    (resp : Option (Option (List MsgInfo))) (now : ℚ) (focused : Bool) :
    HandleResult :=
  let minDuration := config.command.minDuration
  let shouldLookupElapsed :=
    config.command.enabled && decide (config.command.path.length > 0) &&
      decide (0 < minDuration)
  let elapsedSeconds : Option ℚ :=
    if shouldLookupElapsed then
      match getSessionIDFromEvent event with
      | some _ => getElapsedSinceLastPrompt resp now
      | none => none
    else none
  handleEvent config eventType projectName elapsedSeconds focused

/-! ## Concrete inputs and the spec-side file predicate used by the claims -/

/-- Follows the spec's words, for the round-trip claim: a config file
"containing only non-default fields", i.e. every field present in the
file differs from the corresponding computed default (per-event entries
are non-default when parsing them changes the resolved per-event flags;
any present custom sound is non-default since every sound defaults to
`null`). -/
def specOnlyNonDefaultFields (u : UserFile) : Bool :=
  let globalSound := u.sound.getD true
  let globalNotification := u.notification.getD true
  let dwg : EventConfig := { sound := globalSound, notification := globalNotification }
  let evNonDefault : Option UserEventVal → EventConfig → Bool := fun v d =>
    match v with
    | none => true
    | some x => parseEventConfig (some x) d != d
  (match u.sound with | none => true | some b => b != DEFAULT_CONFIG.sound) &&
  (match u.notification with | none => true | some b => b != DEFAULT_CONFIG.notification) &&
  (match u.timeout with | none => true | some v => v != JVal.jnum (.fin 5)) &&
  (match u.showProjectName with | none => true | some b => b != DEFAULT_CONFIG.showProjectName) &&
  (match u.showIcon with | none => true | some b => b != DEFAULT_CONFIG.showIcon) &&
  (match u.notificationSystem with | none => true | some s => s != "osascript") &&
  (match u.command with
   | none => true
   | some cmd =>
     (match cmd.enabled with | none => true | some b => b != DEFAULT_CONFIG.command.enabled) &&
     (match cmd.path with | none => true | some p => p != DEFAULT_CONFIG.command.path) &&
     (match cmd.minDuration with | none => true | some v => v != JVal.jnum (.fin 0))) &&
  (match u.events with
   | none => true
   | some ev =>
     evNonDefault ev.permission dwg && evNonDefault ev.complete dwg &&
     evNonDefault ev.subagent_complete { sound := false, notification := false } &&
     evNonDefault ev.error dwg && evNonDefault ev.question dwg) &&
  evNonDefault u.permission dwg && evNonDefault u.complete dwg &&
  evNonDefault u.subagent_complete { sound := false, notification := false } &&
  evNonDefault u.error dwg && evNonDefault u.question dwg &&
  (match u.messages with
   | none => true
   | some m =>
     (match m.permission with
      | none => true | some s => s != DEFAULT_CONFIG.messages.permission) &&
     (match m.complete with
      | none => true | some s => s != DEFAULT_CONFIG.messages.complete) &&
     (match m.subagent_complete with
      | none => true | some s => s != DEFAULT_CONFIG.messages.subagent_complete) &&
     (match m.error with
      | none => true | some s => s != DEFAULT_CONFIG.messages.error) &&
     (match m.question with
      | none => true | some s => s != DEFAULT_CONFIG.messages.question))

/-- A config file whose only field is a (non-default) custom sound for
the `complete` event. -/
def soundOnlyFile : UserFile :=
  { emptyUserFile with
    sounds := some
      { permission := none
        complete := some "ding.wav"
        subagent_complete := none
        error := none
        question := none } }

/-- A config file with only non-default fields (global sound off, the
`complete` event forced fully on) on which the save/load round trip
does hold. -/
def roundTripFile : UserFile :=
  { emptyUserFile with
    sound := some false
    complete := some (.shorthand true) }

/-! ## Helper lemmas -/

lemma orElse_none_eq {α : Type} (x : Option α) : (x <|> none) = x := by simp

lemma none_orElse_eq {α : Type} (x : Option α) : (none <|> x) = x := by simp

lemma parseEventConfig_saved (es en ds dn : Bool) :
    parseEventConfig
      (if es != ds || en != dn then
        some (.override { sound := some es, notification := some en })
       else none) { sound := ds, notification := dn } = { sound := es, notification := en } := by
  by_cases h1 : es = ds <;> by_cases h2 : en = dn <;> simp [parseEventConfig, h1, h2]

lemma savedEntry_eq_none (es en ds dn : Bool) :
    ((if es != ds || en != dn then
        some (UserEventVal.override { sound := some es, notification := some en })
      else none) = none) ↔ (es = ds ∧ en = dn) := by
  by_cases h1 : es = ds <;> by_cases h2 : en = dn <;> simp [h1, h2]

lemma evBind1 (a b c d e : Option UserEventVal) :
    (if a = none ∧ b = none ∧ c = none ∧ d = none ∧ e = none then none
     else some (⟨a, b, c, d, e⟩ : EventMap (Option UserEventVal))).bind
      (fun ev => ev.permission) = a := by
  by_cases h : a = none ∧ b = none ∧ c = none ∧ d = none ∧ e = none
  · simp [h, h.1]
  · simp [h]

lemma evBind2 (a b c d e : Option UserEventVal) :
    (if a = none ∧ b = none ∧ c = none ∧ d = none ∧ e = none then none
     else some (⟨a, b, c, d, e⟩ : EventMap (Option UserEventVal))).bind
      (fun ev => ev.complete) = b := by
  by_cases h : a = none ∧ b = none ∧ c = none ∧ d = none ∧ e = none
  · simp [h, h.2.1]
  · simp [h]

lemma evBind3 (a b c d e : Option UserEventVal) :
    (if a = none ∧ b = none ∧ c = none ∧ d = none ∧ e = none then none
     else some (⟨a, b, c, d, e⟩ : EventMap (Option UserEventVal))).bind
      (fun ev => ev.subagent_complete) = c := by
  by_cases h : a = none ∧ b = none ∧ c = none ∧ d = none ∧ e = none
  · simp [h, h.2.2.1]
  · simp [h]

lemma evBind4 (a b c d e : Option UserEventVal) :
    (if a = none ∧ b = none ∧ c = none ∧ d = none ∧ e = none then none
     else some (⟨a, b, c, d, e⟩ : EventMap (Option UserEventVal))).bind
      (fun ev => ev.error) = d := by
  by_cases h : a = none ∧ b = none ∧ c = none ∧ d = none ∧ e = none
  · simp [h, h.2.2.2.1]
  · simp [h]

lemma evBind5 (a b c d e : Option UserEventVal) :
    (if a = none ∧ b = none ∧ c = none ∧ d = none ∧ e = none then none
     else some (⟨a, b, c, d, e⟩ : EventMap (Option UserEventVal))).bind
      (fun ev => ev.question) = e := by
  by_cases h : a = none ∧ b = none ∧ c = none ∧ d = none ∧ e = none
  · simp [h, h.2.2.2.2]
  · simp [h]

lemma filterMap_astr (xs : List String) :
    List.filterMap (fun a => match a with | .astr s => some s | .aother => none)
      (xs.map ArgItem.astr) = xs := by
  induction xs with
  | nil => rfl
  | cons x xs ih => simp [ih]

lemma filterMap_comp_astr (xs : List String) :
    List.filterMap
      ((fun a => match a with | ArgItem.astr s => some s | ArgItem.aother => none) ∘ ArgItem.astr)
      xs = xs := by
  induction xs with
  | nil => rfl
  | cons x xs ih => simp [Function.comp, ih]

lemma load_timeout_gtZero (u : UserFile) : (loadConfigFile u).timeout.gtZero = true := by
  cases h : u.timeout with
  | none => simp [loadConfigFile, h]; decide
  | some v =>
    cases v with
    | jnum n =>
      by_cases hn : n.gtZero = true
      · simp [loadConfigFile, h, hn]
      · simp [loadConfigFile, h, hn]; decide
    | jnull => simp [loadConfigFile, h]; decide
    | jother => simp [loadConfigFile, h]; decide

lemma load_minDuration_nonneg (u : UserFile) : 0 ≤ (loadConfigFile u).command.minDuration := by
  cases hc : u.command with
  | none => simp [loadConfigFile, hc, emptyUserCommand]
  | some cmd =>
    cases hm : cmd.minDuration with
    | none => simp [loadConfigFile, hc, hm]
    | some v =>
      cases v with
      | jnum n =>
        cases n with
        | fin q =>
          by_cases hq : (0 : ℚ) < q
          · simp [loadConfigFile, hc, hm, JNum.isFinite, JNum.gtZero, JNum.toRatD, hq, le_of_lt hq]
          · simp [loadConfigFile, hc, hm, JNum.isFinite, JNum.gtZero, JNum.toRatD, hq]
        | inf => simp [loadConfigFile, hc, hm, JNum.isFinite]
        | negInf => simp [loadConfigFile, hc, hm, JNum.isFinite]
        | nan => simp [loadConfigFile, hc, hm, JNum.isFinite]
      | jnull => simp [loadConfigFile, hc, hm]
      | jother => simp [loadConfigFile, hc, hm]

lemma load_suppress_false (u : UserFile) : (loadConfigFile u).suppressWhenFocused = false := rfl

lemma load_save_sound (c : NotifierConfig) :
    (loadConfigFile (saveConfig c)).sound = c.sound := rfl

/-- Core of the round trip: reloading a saved config reproduces it, for
any config whose `timeout` is finite and positive (as every loaded
config's is, finiteness aside), whose `minDuration` is non-negative,
whose custom sounds are all unset, whose `suppressWhenFocused` is unset,
and whose command extras (`args`, `minDuration`) are absent whenever the
command block is omitted on write (disabled with an empty path). -/
lemma loadConfigFile_saveConfig (c : NotifierConfig)
    (htf : c.timeout.isFinite = true)
    (htp : c.timeout.gtZero = true)
    (hmd : 0 ≤ c.command.minDuration)
    (hcmd : c.command.enabled = false ∧ c.command.path = "" →
      c.command.args = none ∧ c.command.minDuration = 0)
    (hsounds : c.sounds = { permission := none, complete := none, subagent_complete := none,
                            error := none, question := none })
    (hsup : c.suppressWhenFocused = false) :
    loadConfigFile (saveConfig c) = c := by
  have hns : ("osascript" : String) ≠ "node-notifier" := by decide
  obtain ⟨snd, ntf, tmo, spn, sic, nsys, cmd, evs, msgs, snds, sup⟩ := c
  obtain ⟨ce, cp, ca, cm⟩ := cmd
  obtain ⟨⟨e1s, e1n⟩, ⟨e2s, e2n⟩, ⟨e3s, e3n⟩, ⟨e4s, e4n⟩, ⟨e5s, e5n⟩⟩ := evs
  obtain ⟨m1, m2, m3, m4, m5⟩ := msgs
  simp only at htf htp hmd hcmd hsounds hsup
  subst hsounds
  subst hsup
  cases tmo with
  | inf => simp [JNum.isFinite] at htf
  | negInf => simp [JNum.isFinite] at htf
  | nan => simp [JNum.isFinite] at htf
  | fin q =>
    simp only [JNum.gtZero, decide_eq_true_eq] at htp
    have d1 : DEFAULT_CONFIG.command.enabled = false := rfl
    have d2 : DEFAULT_CONFIG.command.path = "" := rfl
    have ds1 : DEFAULT_CONFIG.sounds.permission = none := rfl
    have ds2 : DEFAULT_CONFIG.sounds.complete = none := rfl
    have ds3 : DEFAULT_CONFIG.sounds.subagent_complete = none := rfl
    have ds4 : DEFAULT_CONFIG.sounds.error = none := rfl
    have ds5 : DEFAULT_CONFIG.sounds.question = none := rfl
    simp only [saveConfig, loadConfigFile, JVal.ofStringifiedNum, evBind1, evBind2, evBind3,
      evBind4, evBind5, parseEventConfig_saved, Option.getD_some, Option.bind_some,
      emptyUserCommand, filterMap_astr, JNum.isFinite, JNum.gtZero, JNum.toRatD,
      decide_eq_true htp, hns, orElse_none_eq, none_orElse_eq, Option.some_bind,
      Option.none_bind, if_true, d1, d2, ds1, ds2, ds3, ds4, ds5,
      NotifierConfig.mk.injEq, CommandConfig.mk.injEq, EventMap.mk.injEq,
      and_true, true_and]
    refine ⟨by cases nsys <;> simp [hns], ?_⟩
    have hcases : (ce || cp != "") = true ∨ (ce = false ∧ cp = "") := by
      cases ce
      · by_cases hcp : cp = ""
        · right; exact ⟨rfl, hcp⟩
        · left; simp [hcp]
      · left; simp
    rcases hcases with hcc | ⟨hce, hcp⟩
    · rcases eq_or_lt_of_le hmd with hcm | hcm
      · subst hcm
        cases ca <;> simp [hcc, filterMap_astr, filterMap_comp_astr, ite_self]
      · cases ca <;> simp [hcc, filterMap_astr, filterMap_comp_astr, decide_eq_true hcm]
    · obtain ⟨hca, hcm0⟩ := hcmd ⟨hce, hcp⟩
      subst hce
      subst hcp
      subst hca
      subst hcm0
      simp

/-! ## Claims -/

/-- C1 (counterexample): the round trip `saveConfig(loadConfig())`
fails on a config file containing only non-default fields: a file
whose sole field is a custom sound for the `complete` event loads to a
config carrying that sound, but `saveConfig` never writes the `sounds`
mapping, so the reloaded config loses it. -/
theorem saveConfig_roundTrip_cex :
    specOnlyNonDefaultFields soundOnlyFile = true ∧
    (loadConfigFile soundOnlyFile).sounds.complete = some "ding.wav" ∧
    (loadConfigFile (saveConfig (loadConfigFile soundOnlyFile))).sounds.complete = none ∧
    loadConfigFile (saveConfig (loadConfigFile soundOnlyFile)) ≠ loadConfigFile soundOnlyFile := by
  refine ⟨by decide, by decide, by decide, by decide⟩

/-- C1 (amended): the save/load round trip reproduces the original load
field-for-field provided the file sets no custom sounds, no non-finite
timeout, and no command `args`/`minDuration` while the command stays
disabled with an empty path; and on write a per-event entry is omitted
exactly when it equals its computed default (the global flags, or
both-false for `subagent_complete`) — global scalar fields and
`messages` are always written. -/
theorem saveConfig_roundTrip_amended :
    (∀ u : UserFile,
      (loadConfigFile u).sounds =
        { permission := none, complete := none, subagent_complete := none,
          error := none, question := none } →
      (loadConfigFile u).timeout.isFinite = true →
      ((loadConfigFile u).command.enabled = false ∧ (loadConfigFile u).command.path = "" →
        (loadConfigFile u).command.args = none ∧ (loadConfigFile u).command.minDuration = 0) →
      loadConfigFile (saveConfig (loadConfigFile u)) = loadConfigFile u) ∧
    (∀ (c : NotifierConfig) (e : EventType),
      (saveConfig c).events.bind (fun ev => ev.get e) = none ↔
        c.events.get e =
          (if e = .subagent_complete then { sound := false, notification := false }
           else { sound := c.sound, notification := c.notification })) := by
  constructor
  · intro u h1 h2 h3
    exact loadConfigFile_saveConfig _ h2 (load_timeout_gtZero u) (load_minDuration_nonneg u)
      h3 h1 (load_suppress_false u)
  · intro c e
    obtain ⟨snd, ntf, tmo, spn, sic, nsys, cmd, evs, msgs, snds, sup⟩ := c
    obtain ⟨⟨e1s, e1n⟩, ⟨e2s, e2n⟩, ⟨e3s, e3n⟩, ⟨e4s, e4n⟩, ⟨e5s, e5n⟩⟩ := evs
    cases e <;>
      simp [saveConfig, EventMap.get, evBind1, evBind2, evBind3, evBind4, evBind5,
        savedEntry_eq_none, EventConfig.mk.injEq] <;> tauto

/-- C1 (witness): the round trip holds at a concrete file with only
non-default fields (global sound off, `complete` forced fully on), and
the fully-default `subagent_complete` entry is omitted when saving the
default config. -/
theorem saveConfig_roundTrip_amended_witness :
    loadConfigFile (saveConfig (loadConfigFile roundTripFile)) = loadConfigFile roundTripFile ∧
    (saveConfig DEFAULT_CONFIG).events.bind (fun ev => ev.get .subagent_complete) = none :=
  ⟨saveConfig_roundTrip_amended.1 roundTripFile (by decide) (by decide) (by decide),
   (saveConfig_roundTrip_amended.2 DEFAULT_CONFIG .subagent_complete).mpr (by decide)⟩

/-- C2: for two `sendNotification` calls bearing the identical message
text, the second strictly less than 1000ms after the first delivered
one is suppressed, and a third at least 1000ms after the first is
delivered (the map holds no prior entry for the message, and the first
timestamp is positive, as every `Date.now()` value is). -/
theorem sendNotification_debounce (st₀ : NotifyState) (m : String) (t₁ t₂ t₃ : ℕ)
    (h0 : st₀ m = none) (h1 : 0 < t₁)
    (h2 : (t₂ : ℤ) - (t₁ : ℤ) < 1000) (h3 : (1000 : ℤ) ≤ (t₃ : ℤ) - (t₁ : ℤ)) :
    (sendNotification st₀ m t₁).1 = true ∧
    (sendNotification (sendNotification st₀ m t₁).2 m t₂).1 = false ∧
    (sendNotification (sendNotification (sendNotification st₀ m t₁).2 m t₂).2 m t₃).1 = true := by
  have e1 : sendNotification st₀ m t₁ = (true, fun x => if x = m then some t₁ else st₀ x) := by
    simp [sendNotification, h0]
  have e2 : sendNotification (fun x => if x = m then some t₁ else st₀ x) m t₂
      = (false, fun x => if x = m then some t₁ else st₀ x) := by
    simp [sendNotification, h1.ne', h2]
  have h3' : ¬((t₃ : ℤ) - (t₁ : ℤ) < 1000) := not_lt.mpr h3
  have e3 : (sendNotification (fun x => if x = m then some t₁ else st₀ x) m t₃).1 = true := by
    simp [sendNotification, h3']
  rw [e1]
  exact ⟨rfl, by rw [e2], by rw [e2]; exact e3⟩

/-- C2 (witness): concrete debounce run at times 5, 500 and 1005 on the
fresh map. -/
theorem sendNotification_debounce_witness :
    (sendNotification emptyNotifyState "Session has finished" 5).1 = true ∧
    (sendNotification (sendNotification emptyNotifyState "Session has finished" 5).2
      "Session has finished" 500).1 = false ∧
    (sendNotification (sendNotification (sendNotification emptyNotifyState
      "Session has finished" 5).2 "Session has finished" 500).2
      "Session has finished" 1005).1 = true :=
  sendNotification_debounce emptyNotifyState "Session has finished" 5 500 1005 rfl
    (by decide) (by decide) (by decide)

/-- C3: when notification is enabled for the event, the suppression
flag is set and the terminal is focused, `handleEvent` short-circuits
the whole event handling: no notification, no sound, no command. -/
theorem handleEvent_suppressWhenFocused (config : NotifierConfig) (eventType : EventType)
    (projectName : Option String) (elapsedSeconds : Option ℚ)
    (h1 : isEventNotificationEnabled config eventType = true)
    (h2 : config.suppressWhenFocused = true) :
    handleEvent config eventType projectName elapsedSeconds true =
      { notificationSent := none, soundPlayed := none, commandRun := false } := by
  simp [handleEvent, h1, h2]

/-- C3 (witness): suppression short-circuits at a concrete config with
the flag set, for the `complete` event on a focused terminal. -/
theorem handleEvent_suppressWhenFocused_witness :
    handleEvent { DEFAULT_CONFIG with suppressWhenFocused := true } .complete
      (some "myproject") none true =
      { notificationSent := none, soundPlayed := none, commandRun := false } :=
  handleEvent_suppressWhenFocused _ _ _ _ (by decide) rfl

/-- C4 (counterexample): the claim that a non-finite `timeout` falls
back to the default 5 is false: `loadConfig` checks only
`typeof === "number" && > 0` for `timeout` (no `Number.isFinite`, unlike
`minDuration`), so a file with `timeout` equal to `Infinity` (reachable,
e.g. the JSON literal `1e999`) loads `Infinity`, not 5. -/
theorem loadConfig_timeout_infinite_cex :
    JNum.isFinite JNum.inf = false ∧
    (loadConfigFile { emptyUserFile with timeout := some (.jnum .inf) }).timeout = JNum.inf ∧
    (loadConfigFile { emptyUserFile with timeout := some (.jnum .inf) }).timeout ≠ JNum.fin 5 := by
  refine ⟨rfl, by decide, by decide⟩

/-- C4 (amended): `timeout` is accepted whenever it is a number greater
than zero under JS comparison (`Infinity` included; `NaN`, non-positive
and non-number values yield the default 5), while `command.minDuration`
is accepted only when finite and greater than zero (otherwise 0, no
gating). -/
theorem loadConfig_numericFields_amended (u : UserFile) :
    (∀ n : JNum, u.timeout = some (.jnum n) → n.gtZero = true →
      (loadConfigFile u).timeout = n) ∧
    (∀ n : JNum, u.timeout = some (.jnum n) → n.gtZero = false →
      (loadConfigFile u).timeout = .fin 5) ∧
    ((u.timeout = none ∨ u.timeout = some .jnull ∨ u.timeout = some .jother) →
      (loadConfigFile u).timeout = .fin 5) ∧
    (∀ cmd : UserCommand, u.command = some cmd →
      (∀ n : JNum, cmd.minDuration = some (.jnum n) → (n.isFinite && n.gtZero) = true →
        (loadConfigFile u).command.minDuration = n.toRatD) ∧
      (∀ n : JNum, cmd.minDuration = some (.jnum n) → (n.isFinite && n.gtZero) = false →
        (loadConfigFile u).command.minDuration = 0)) := by
  refine ⟨?_, ?_, ?_, ?_⟩
  · intro n h hgt
    simp [loadConfigFile, h, hgt]
  · intro n h hgt
    simp [loadConfigFile, h, hgt, DEFAULT_CONFIG]
  · intro h
    rcases h with h | h | h <;> simp [loadConfigFile, h, DEFAULT_CONFIG]
  · intro cmd hcmd
    constructor
    · intro n h hfin
      simp [loadConfigFile, hcmd, h, hfin]
    · intro n h hfin
      simp [loadConfigFile, hcmd, h, hfin]

/-- C4 (witness): at a concrete file, an `Infinity` timeout is accepted
as-is while a `-Infinity` `minDuration` falls back to 0. -/
theorem loadConfig_numericFields_amended_witness :
    (loadConfigFile { emptyUserFile with
      timeout := some (.jnum .inf)
      command := some { emptyUserCommand with minDuration := some (.jnum .negInf) } }).timeout
      = JNum.inf ∧
    (loadConfigFile { emptyUserFile with
      timeout := some (.jnum .inf)
      command := some { emptyUserCommand with
        minDuration := some (.jnum .negInf) } }).command.minDuration = 0 :=
  ⟨(loadConfig_numericFields_amended _).1 .inf rfl rfl,
   ((loadConfig_numericFields_amended _).2.2.2 _ rfl).2 .negInf rfl rfl⟩

/-- C5: with no config file present, each of the four Sound Toggle
operations fails with a message containing "Config file not found" and
leaves the filesystem untouched. -/
theorem soundToggle_missingConfigFile :
    ((executeSoundToggle "toggle" none).1.success = false ∧
      "Config file not found".toList <:+: (executeSoundToggle "toggle" none).1.message.toList ∧
      (executeSoundToggle "toggle" none).2 = none) ∧
    ((executeSoundToggle "enable" none).1.success = false ∧
      "Config file not found".toList <:+: (executeSoundToggle "enable" none).1.message.toList ∧
      (executeSoundToggle "enable" none).2 = none) ∧
    ((executeSoundToggle "disable" none).1.success = false ∧
      "Config file not found".toList <:+: (executeSoundToggle "disable" none).1.message.toList ∧
      (executeSoundToggle "disable" none).2 = none) ∧
    ((executeSoundToggle "status" none).1.success = false ∧
      "Config file not found".toList <:+: (executeSoundToggle "status" none).1.message.toList ∧
      (executeSoundToggle "status" none).2 = none) := by
  refine ⟨⟨rfl, by decide, rfl⟩, ⟨rfl, by decide, rfl⟩, ⟨rfl, by decide, rfl⟩,
    ⟨rfl, by decide, rfl⟩⟩

/-- C6: a per-event boolean shorthand `false` for `complete` combined
with global `sound: true` resolves to `events.complete.sound = false`
(and the shorthand applies to the notification flag too) — the
per-event entry takes precedence over the global flag. -/
theorem loadConfig_completeShorthand_precedence (u : UserFile)
    (h1 : ((u.events.bind (fun ev => ev.complete)) <|> u.complete) = some (.shorthand false))
    (h2 : u.sound = some true) :
    (loadConfigFile u).events.complete = { sound := false, notification := false } ∧
    (loadConfigFile u).sound = true := by
  constructor
  · simp [loadConfigFile, h1, parseEventConfig]
  · simp [loadConfigFile, h2]

/-- C6 (witness): concrete file with global sound on and the legacy
boolean shorthand `complete: false`. -/
theorem loadConfig_completeShorthand_precedence_witness :
    (loadConfigFile { emptyUserFile with
      sound := some true
      complete := some (.shorthand false) }).events.complete
      = { sound := false, notification := false } ∧
    (loadConfigFile { emptyUserFile with
      sound := some true
      complete := some (.shorthand false) }).sound = true :=
  loadConfig_completeShorthand_precedence _ rfl rfl

/-- C7: with no user override for `subagent_complete` (neither nested
nor legacy), the event resolves to both flags false, whatever the
global flags are. -/
theorem loadConfig_subagentDefaultOptIn (u : UserFile)
    (h1 : u.events.bind (fun ev => ev.subagent_complete) = none)
    (h2 : u.subagent_complete = none) :
    (loadConfigFile u).events.subagent_complete = { sound := false, notification := false } := by
  simp [loadConfigFile, h1, h2, parseEventConfig]

/-- C7 (witness): concrete file with both global flags explicitly true
and no `subagent_complete` override. -/
theorem loadConfig_subagentDefaultOptIn_witness :
    (loadConfigFile { emptyUserFile with
      sound := some true
      notification := some true }).sound = true ∧
    (loadConfigFile { emptyUserFile with
      sound := some true
      notification := some true }).notification = true ∧
    (loadConfigFile { emptyUserFile with
      sound := some true
      notification := some true }).events.subagent_complete
      = { sound := false, notification := false } :=
  ⟨rfl, rfl, loadConfig_subagentDefaultOptIn _ rfl rfl⟩

/-- C8 (counterexample): the claim judges a match exactly when either
normalized name contains the other, but the code additionally rejects
empty normalized names: with frontmost "abc" and terminal "!!!" the
normalized terminal is empty, the empty string is contained in "abc",
yet `matchesTerminal` returns false. -/
theorem matchesTerminal_emptyNormalization_cex :
    normalizeAppName "!!!" = "" ∧
    ("" : String).toList <:+: (normalizeAppName "abc").toList ∧
    matchesTerminal "abc" "!!!" = false := by
  refine ⟨by decide, by decide, by decide⟩

/-- C8 (amended): both names are normalized by lowercasing and
stripping non-alphanumerics, and a match is judged iff both normalized
names are non-empty and either contains the other; in particular
"iTerm2" vs "iterm" match and "Finder" vs "kitty" do not. -/
theorem matchesTerminal_amended :
    (∀ frontmost terminal : String,
      matchesTerminal frontmost terminal = true ↔
        normalizeAppName frontmost ≠ "" ∧ normalizeAppName terminal ≠ "" ∧
          ((normalizeAppName terminal).toList <:+: (normalizeAppName frontmost).toList ∨
           (normalizeAppName frontmost).toList <:+: (normalizeAppName terminal).toList)) ∧
    matchesTerminal "iTerm2" "iterm" = true ∧
    matchesTerminal "Finder" "kitty" = false := by
  refine ⟨?_, by decide, by decide⟩
  intro f t
  by_cases hf : normalizeAppName f = "" <;> by_cases ht : normalizeAppName t = "" <;>
    simp [matchesTerminal, strIncludes, hf, ht]

/-- C9: with the config file present, toggling the sound flag twice
returns it to its original persisted value, and each application
reports success with `soundEnabled` equal to the new value. -/
theorem toggleSound_involution (u : UserFile) :
    (toggleSound (some u)).1.success = true ∧
    (toggleSound (some u)).1.soundEnabled = some (!(loadConfig (some u)).sound) ∧
    (toggleSound (toggleSound (some u)).2).1.success = true ∧
    (toggleSound (toggleSound (some u)).2).1.soundEnabled = some ((loadConfig (some u)).sound) ∧
    (loadConfig (toggleSound (toggleSound (some u)).2).2).sound = (loadConfig (some u)).sound := by
  have e1 : toggleSound (some u) =
      ({ success := true
         message := if !(loadConfigFile u).sound then "Sounds have been enabled."
                    else "Sounds have been disabled."
         soundEnabled := some (!(loadConfigFile u).sound) },
        some (saveConfig { loadConfigFile u with sound := !(loadConfigFile u).sound })) := rfl
  have hs1 : (loadConfigFile (saveConfig
      { loadConfigFile u with sound := !(loadConfigFile u).sound })).sound
      = !(loadConfigFile u).sound := load_save_sound _
  rw [e1]
  refine ⟨rfl, rfl, ?_, ?_, ?_⟩
  · simp [toggleSound]
  · simp [toggleSound, loadConfig, hs1]
  · simp [toggleSound, loadConfig, hs1, load_save_sound]

/-- C10: when command gating is configured (enabled, non-empty path,
positive `minDuration`) but the elapsed time is unknown (no session ID
on the event, or the host query yields no last-user-message time),
`handleEventWithElapsedTime` still invokes the external command; the
gate skips the command exactly when a known elapsed time is strictly
below `minDuration`. -/
theorem handleEventWithElapsedTime_nullElapsed (config : NotifierConfig) (eventType : EventType)
    (projectName : Option String) (event : HostEvent)
    (resp : Option (Option (List MsgInfo))) (now : ℚ) (focused : Bool)
    (h1 : config.command.enabled = true)
    (h2 : 0 < config.command.path.length)
    (h3 : 0 < config.command.minDuration)
    (h4 : config.suppressWhenFocused = false) :
    (getSessionIDFromEvent event = none →
      (handleEventWithElapsedTime config eventType projectName event resp now
        focused).commandRun = true) ∧
    (getElapsedSinceLastPrompt resp now = none →
      (handleEventWithElapsedTime config eventType projectName event resp now
        focused).commandRun = true) ∧
    (∀ q : ℚ, getElapsedSinceLastPrompt resp now = some q → getSessionIDFromEvent event ≠ none →
      ((handleEventWithElapsedTime config eventType projectName event resp now
          focused).commandRun = false ↔
        q < config.command.minDuration)) := by
  have hmain : ∀ es : Option ℚ,
      (handleEvent config eventType projectName es focused).commandRun
        = !(decide (0 < config.command.minDuration) &&
            (match es with
             | some e => decide (e < config.command.minDuration)
             | none => false)) := by
    intro es
    simp [handleEvent, h4]
  refine ⟨?_, ?_, ?_⟩
  · intro hs
    simp [handleEventWithElapsedTime, h1, decide_eq_true h2, decide_eq_true h3, hs, hmain, h3]
  · intro he
    cases hsid : getSessionIDFromEvent event with
    | none =>
      simp [handleEventWithElapsedTime, h1, decide_eq_true h2, decide_eq_true h3, hsid, hmain, h3]
    | some s =>
      simp [handleEventWithElapsedTime, h1, decide_eq_true h2, decide_eq_true h3, hsid, he,
        hmain, h3]
  · intro q hq hsid
    cases hsid2 : getSessionIDFromEvent event with
    | none => exact absurd hsid2 hsid
    | some s =>
      simp [handleEventWithElapsedTime, h1, decide_eq_true h2, decide_eq_true h3, hsid2, hq,
        hmain, h3]

/-- C10 (witness): at a concrete gated config (minDuration 30), an
event with no session ID still triggers the command. -/
theorem handleEventWithElapsedTime_nullElapsed_witness :
    (handleEventWithElapsedTime
      { DEFAULT_CONFIG with
        command := { enabled := true, path := "/usr/local/bin/notify-hook"
                     args := none, minDuration := 30 } }
      .complete none { sessionID := none } none 0 false).commandRun = true :=
  (handleEventWithElapsedTime_nullElapsed _ _ _ _ _ _ _ rfl (by decide) (by decide) rfl).1 rfl
